import Mathlib

/-!
Shallow embedding of the smart-manufacturing downtime-intelligence pipeline.

Sources embedded here:
  * `agents/agentsworkflow.py` — `ManufacturingState`, `ManufacturingAgent`
    (the five pipeline stages and `build_workflow`);
  * `graph/graphneo4j_manager.py` — `Neo4jManager` (graph fixture and the
    Cypher queries of `get_failure_impact` / `get_full_graph_summary`);
  * `config.py` — `Config`.

Modelling conventions: Python floats are embedded as `ℚ` (the scoring rule
only compares and adds decimal constants); Python `round(x, 2)` is embedded
as exact rounding of a rational to hundredths; pandas dataframes are lists
of records; Python dicts built by insertion are association lists in
insertion order; the Ollama chat model is an opaque function
`String → String → String` (system message → human message → reply), and
prompt serialization of nested values is embedded by a fixed concrete
textual rendering (the claims under study never depend on prompt wording).
Cypher variable-length patterns `[:DEPENDS_ON*lo..hi]` are embedded as
enumeration of relationship sequences with pairwise-distinct relationship
occurrences (Neo4j's relationship-uniqueness rule), one result row per
matching path binding.
-/

/-- One row of the sensor-log dataframe (columns of `data/datasensor_logs.py`). -/
structure Reading where
  machine_id : String
  machine_name : String
  machine_type : String
  timestamp : String
  temperature : ℚ
  vibration : ℚ
  pressure : ℚ
  rpm : ℚ
  error_code : String
deriving DecidableEq

/-- One row of the maintenance-history dataframe. -/
structure MaintRecord where
  machine_id : String
  maintenance_date : String
  mtype : String
  description : String
  technician : String
  vendor : String
  cost : ℚ
  downtime_hours : ℚ
deriving DecidableEq

/-- `config.py`: the alert thresholds (the LLM/Neo4j connection settings play
no role in the embedded computations). -/
structure Config where
  FAILURE_THRESHOLD : ℚ
  CRITICAL_TEMP_THRESHOLD : ℚ
  CRITICAL_VIBRATION_THRESHOLD : ℚ
deriving DecidableEq

/-- The values assigned in `config.py`: 0.75, 85.0, 8.5. -/
def defaultConfig : Config :=
  { FAILURE_THRESHOLD := 75/100
    CRITICAL_TEMP_THRESHOLD := 85
    CRITICAL_VIBRATION_THRESHOLD := 85/10 }

/-- Python `round(x, 2)` on the embedded rationals: round to hundredths.
(Python rounds ties to even; Mathlib's `round` rounds ties up.  Every value
the pipeline rounds where a claim depends on the result is an exact multiple
of 1/100, for which the two rules agree.) -/
def round2 (q : ℚ) : ℚ := ((round (q * 100) : ℤ) : ℚ) / 100

/-- Python `round(x, 1)` rendered to one decimal, used only inside the
human-readable reason strings. -/
def fmt1 (q : ℚ) : String :=
  let n : ℤ := round (q * 10)
  (if n < 0 then "-" else "") ++ toString (n.natAbs / 10) ++ "." ++ toString (n.natAbs % 10)

/-- pandas `Series.mean()` over the embedded column. -/
def listMean (f : Reading → ℚ) (data : List Reading) : ℚ :=
  (data.map f).sum / (data.length : ℚ)

/-- pandas `DataFrame.tail(n)`: the last `n` rows (all of them when fewer). -/
def tail_n (n : Nat) (l : List α) : List α := l.drop (l.length - n)

/-- `df[df["machine_id"] == machine_id]`. -/
def rowsFor (df : List Reading) (m : String) : List Reading :=
  df.filter (fun r => r.machine_id == m)

/-- Generic first-occurrence deduplication by left fold, as produced by
iterating a collection and keeping each element the first time it is seen. -/
def distinctKeepFirst [DecidableEq α] (l : List α) : List α :=
  l.foldl (fun acc a => if a ∈ acc then acc else acc ++ [a]) []

/-- pandas `df["machine_id"].unique()`: machine ids in first-seen order. -/
def uniqueIds (df : List Reading) : List String :=
  distinctKeepFirst (df.map (fun r => r.machine_id))

/-- The per-machine quantities computed inside the loop of
`ManufacturingAgent.ingest_sensor_logs`. -/
structure ScoreResult where
  score : ℚ
  reasons : List String
  avg_temperature : ℚ
  avg_vibration : ℚ
  avg_pressure : ℚ
  error_count : Nat
deriving DecidableEq

def highTempReason (t : ℚ) : String := "High Temp: " ++ fmt1 t ++ "C"

def highVibrationReason (v : ℚ) : String := "High Vibration: " ++ fmt1 v

def errorsReason (n : Nat) : String := "Errors: " ++ toString n ++ " in 24hrs"

def lowPressureReason (p : ℚ) : String := "Low Pressure: " ++ fmt1 p

/-- The body of the scoring loop of `ingest_sensor_logs` applied to one
machine's window `data`: averages, error count, the four additive
threshold rules (in source order: temperature, vibration, errors,
pressure), and the final `round(score, 2)`. -/
def scoreWindow (cfg : Config) (data : List Reading) : ScoreResult :=
  let avg_temp := listMean (fun r => r.temperature) data
  let avg_vibration := listMean (fun r => r.vibration) data
  let avg_pressure := listMean (fun r => r.pressure) data
  let error_count := (data.filter (fun r => r.error_code != "NONE")).length
  let sr0 : ℚ × List String := (0, [])
  let sr1 := if avg_temp > cfg.CRITICAL_TEMP_THRESHOLD then
      (sr0.1 + 35/100, sr0.2 ++ [highTempReason avg_temp]) else sr0
  let sr2 := if avg_vibration > cfg.CRITICAL_VIBRATION_THRESHOLD then
      (sr1.1 + 35/100, sr1.2 ++ [highVibrationReason avg_vibration]) else sr1
  let sr3 := if error_count > 3 then
      (sr2.1 + 20/100, sr2.2 ++ [errorsReason error_count]) else sr2
  let sr4 := if avg_pressure < 85 then
      (sr3.1 + 10/100, sr3.2 ++ [lowPressureReason avg_pressure]) else sr3
  { score := round2 sr4.1
    reasons := sr4.2
    avg_temperature := avg_temp
    avg_vibration := avg_vibration
    avg_pressure := avg_pressure
    error_count := error_count }

/-- `data = df[df["machine_id"] == machine_id].tail(24)`: the machine's
scoring window. -/
def machineWindow (df : List Reading) (m : String) : List Reading :=
  tail_n 24 (rowsFor df m)

/-- The scoring-loop body for machine `m` of dataframe `df`. -/
def machineResult (cfg : Config) (df : List Reading) (m : String) : ScoreResult :=
  scoreWindow cfg (machineWindow df m)

/-- The rounded risk score stored in `failure_probability[machine_id]`. -/
def machineScore (cfg : Config) (df : List Reading) (m : String) : ℚ :=
  (machineResult cfg df m).score

/-- The anomaly record appended for a machine whose score reaches the
failure threshold (field-for-field the dict built in `ingest_sensor_logs`). -/
structure Anomaly where
  machine_id : String
  failure_probability : ℚ
  avg_temperature : ℚ
  avg_vibration : ℚ
  avg_pressure : ℚ
  error_count : Nat
  reasons : List String
deriving DecidableEq

def mkAnomaly (cfg : Config) (df : List Reading) (m : String) : Anomaly :=
  let r := machineResult cfg df m
  { machine_id := m
    failure_probability := r.score
    avg_temperature := round2 r.avg_temperature
    avg_vibration := round2 r.avg_vibration
    avg_pressure := round2 r.avg_pressure
    error_count := r.error_count
    reasons := r.reasons }

/-- The `for machine_id in df["machine_id"].unique()` loop of
`ingest_sensor_logs`, processing the listed ids in order and accumulating
(anomalies, failing_machines, failure_probability) — the third component in
dict-insertion order. -/
def ingestLoop (cfg : Config) (df : List Reading) :
    List String → List Anomaly × List String × List (String × ℚ)
  | [] => ([], [], [])
  | m :: rest =>
    let r := machineResult cfg df m
    let acc := ingestLoop cfg df rest
    if cfg.FAILURE_THRESHOLD ≤ r.score then
      (mkAnomaly cfg df m :: acc.1, m :: acc.2.1, (m, r.score) :: acc.2.2)
    else
      (acc.1, acc.2.1, (m, r.score) :: acc.2.2)

/-! ## Dependency graph store (`graph/graphneo4j_manager.py`) -/

/-- A `Machine` node as created by `Neo4jManager.create_machines`. -/
structure MachineNode where
  id : String
  name : String
  mtype : String
  plant : String
  vendor : String
  status : String
  criticality : String
deriving DecidableEq

/-- A `ProductionLine` node as created by `create_production_lines`. -/
structure LineNode where
  id : String
  name : String
  plant : String
deriving DecidableEq

/-- A `DEPENDS_ON` relationship `src -> dst` with its properties. -/
structure DependsOnEdge where
  src : String
  dst : String
  impact : String
  reason : String
deriving DecidableEq

/-- A `FEEDS_INTO` relationship machine -> production line. -/
structure FeedsIntoEdge where
  machine : String
  line : String
  sequence : Nat
deriving DecidableEq

/-- The embedded Neo4j database contents. -/
structure GraphState where
  machines : List MachineNode
  production_lines : List LineNode
  depends_on : List DependsOnEdge
  feeds_into : List FeedsIntoEdge
deriving DecidableEq

def emptyStore : GraphState := ⟨[], [], [], []⟩

/-- `MATCH (n) DETACH DELETE n`. -/
def clear_database (_g : GraphState) : GraphState := emptyStore

/-- The five machine dicts of `create_machines`. -/
def machinesFixture : List MachineNode :=
  [ ⟨"M001", "CNC Machine A", "CNC", "Plant_North", "Siemens", "Running", "High"⟩,
    ⟨"M002", "Conveyor Belt B", "Conveyor", "Plant_North", "ABB", "Degrading", "Critical"⟩,
    ⟨"M003", "Robotic Arm C", "Robot", "Plant_South", "FANUC", "Running", "High"⟩,
    ⟨"M004", "Hydraulic Press D", "Press", "Plant_South", "Bosch", "Running", "Medium"⟩,
    ⟨"M005", "Assembly Unit E", "Assembly", "Plant_North", "Siemens", "Running", "Critical"⟩ ]

def create_machines (g : GraphState) : GraphState :=
  { g with machines := g.machines ++ machinesFixture }

/-- The three production-line dicts of `create_production_lines`. -/
def linesFixture : List LineNode :=
  [ ⟨"PL001", "Engine Assembly Line", "Plant_North"⟩,
    ⟨"PL002", "Body Welding Line", "Plant_South"⟩,
    ⟨"PL003", "Paint Shop Line", "Plant_North"⟩ ]

def create_production_lines (g : GraphState) : GraphState :=
  { g with production_lines := g.production_lines ++ linesFixture }

def machinesWithId (g : GraphState) (i : String) : List MachineNode :=
  g.machines.filter (fun m => m.id == i)

def linesWithId (g : GraphState) (i : String) : List LineNode :=
  g.production_lines.filter (fun l => l.id == i)

/-- One `MATCH (a) MATCH (b) CREATE (a)-[:DEPENDS_ON ...]->(b)` statement:
one relationship is created per pair of matched endpoint nodes (none when an
endpoint id is absent). -/
def addDependsOn (g : GraphState) (e : DependsOnEdge) : GraphState :=
  { g with depends_on := g.depends_on ++
      ((machinesWithId g e.src).flatMap fun _ => (machinesWithId g e.dst).map fun _ => e) }

/-- One `MATCH (m) MATCH (p) CREATE (m)-[:FEEDS_INTO ...]->(p)` statement. -/
def addFeedsInto (g : GraphState) (e : FeedsIntoEdge) : GraphState :=
  { g with feeds_into := g.feeds_into ++
      ((machinesWithId g e.machine).flatMap fun _ => (linesWithId g e.line).map fun _ => e) }

/-- The `dependencies` list of `create_relationships`. -/
def dependenciesFixture : List DependsOnEdge :=
  [ ⟨"M001", "M002", "High", "Parts supply"⟩,
    ⟨"M005", "M002", "Critical", "Assembly feed"⟩,
    ⟨"M005", "M001", "High", "Machined parts"⟩,
    ⟨"M004", "M003", "Medium", "Positioning"⟩ ]

/-- The `feeds` list of `create_relationships`. -/
def feedsFixture : List FeedsIntoEdge :=
  [ ⟨"M001", "PL001", 1⟩,
    ⟨"M002", "PL001", 2⟩,
    ⟨"M005", "PL001", 3⟩,
    ⟨"M003", "PL002", 1⟩,
    ⟨"M004", "PL002", 2⟩ ]

def create_relationships (g : GraphState) : GraphState :=
  (dependenciesFixture.foldl addDependsOn g |> feedsFixture.foldl addFeedsInto)

/-- The graph built by `main.py` / `app.py`:
clear, create machines, create lines, create relationships. -/
def fixtureGraph : GraphState :=
  create_relationships (create_production_lines (create_machines (clear_database emptyStore)))

/-- The start node id of a relationship sequence read target-to-source:
a path is stored as its hop list `[e1, ..., ek]` with `e1.src` the path's
start, consecutive `dst`/`src` matching, and `ek.dst = x`; the empty path
starts (and ends) at `x` itself. -/
def pathStart (x : String) : List (Nat × DependsOnEdge) → String
  | [] => x
  | e :: _ => e.2.src

/-- All matches of the variable-length pattern
`(a)-[:DEPENDS_ON*n]->(f)` ending at node id `x`: relationship sequences of
length exactly `n` with pairwise-distinct relationship occurrences
(relationships are identified with their position in the store, hence the
`Nat` index).  Built by prepending one more unused relationship to each
match of length `n - 1`. -/
def pathsToLen (R : List (Nat × DependsOnEdge)) (x : String) :
    Nat → List (List (Nat × DependsOnEdge))
  | 0 => [[]]
  | n+1 => (pathsToLen R x n).flatMap fun p =>
      (R.filter fun r => r.2.dst == pathStart x p && decide (r ∉ p)).map (· :: p)

/-- A row of the `affected` query result. -/
structure AffectedRow where
  affected_id : String
  affected_name : String
  criticality : String
deriving DecidableEq

/-- A row of the `lines` query result. -/
structure LineRow where
  line_name : String
  plant : String
deriving DecidableEq

/-- `MATCH (a:Machine)-[:DEPENDS_ON*1..3]->(f:Machine {id: $id}) RETURN a.id,
a.name, a.criticality` — no `DISTINCT`: one row per (f-binding, path,
a-binding). -/
def affectedRows (g : GraphState) (x : String) : List AffectedRow :=
  (machinesWithId g x).flatMap fun _f =>
    ([1, 2, 3].flatMap (pathsToLen g.depends_on.enum x)).flatMap fun p =>
      (machinesWithId g (pathStart x p)).map fun a => ⟨a.id, a.name, a.criticality⟩

/-- The rows of the `lines` query before `DISTINCT`:
`MATCH (m:Machine)-[:DEPENDS_ON*0..3]->(f:Machine {id: $id})
 MATCH (m)-[:FEEDS_INTO]->(pl:ProductionLine)`. -/
def lineRowsRaw (g : GraphState) (x : String) : List LineRow :=
  (machinesWithId g x).flatMap fun _f =>
    ([0, 1, 2, 3].flatMap (pathsToLen g.depends_on.enum x)).flatMap fun p =>
      (machinesWithId g (pathStart x p)).flatMap fun m =>
        (g.feeds_into.filter fun e => e.machine == m.id).flatMap fun e =>
          (linesWithId g e.line).map fun pl => ⟨pl.name, pl.plant⟩

/-- The return value of `Neo4jManager.get_failure_impact`. -/
structure FailureImpact where
  failing_machine : String
  affected_machines : List AffectedRow
  impacted_lines : List LineRow
deriving DecidableEq

def get_failure_impact (g : GraphState) (machine_id : String) : FailureImpact :=
  { failing_machine := machine_id
    affected_machines := affectedRows g machine_id
    impacted_lines := distinctKeepFirst (lineRowsRaw g machine_id) }

/-- `get_failure_impact` run against the live store: its Cypher consists of
`MATCH`/`RETURN` clauses only (no write clause), so the session leaves the
database unchanged; the returned pair is (query result, database after the
call). -/
def get_failure_impact_run (g : GraphState) (machine_id : String) :
    FailureImpact × GraphState :=
  (get_failure_impact g machine_id, g)

/-- A row of `get_full_graph_summary`. -/
structure EdgeSummary where
  from_name : String
  relationship : String
  to_name : String
deriving DecidableEq

/-- `MATCH (a)-[r]->(b) RETURN a.name, type(r), b.name`. -/
def get_full_graph_summary (g : GraphState) : List EdgeSummary :=
  (g.depends_on.flatMap fun e =>
    (machinesWithId g e.src).flatMap fun a =>
      (machinesWithId g e.dst).map fun b => ⟨a.name, "DEPENDS_ON", b.name⟩)
  ++ (g.feeds_into.flatMap fun e =>
    (machinesWithId g e.machine).flatMap fun m =>
      (linesWithId g e.line).map fun pl => ⟨m.name, "FEEDS_INTO", pl.name⟩)

/-! ## Pipeline state and the five stages (`agents/agentsworkflow.py`) -/

/-- The `ManufacturingState` TypedDict. -/
structure ManufacturingState where
  sensor_logs : List Reading
  maintenance_history : List MaintRecord
  anomalies : List Anomaly
  failing_machines : List String
  failure_probability : List (String × ℚ)
  impact_analysis : List (String × FailureImpact)
  graph_context : List EdgeSummary
  root_cause_analysis : String
  maintenance_plan : String
  executive_summary : String
  current_step : String
  errors : List String
deriving DecidableEq

/-- `ManufacturingAgent`'s collaborators: the Neo4j store contents and the
chat model as an opaque system-message/human-message → reply function. -/
structure Agent where
  neo4j : GraphState
  llm : String → String → String

/-- Step 1, `ManufacturingAgent.ingest_sensor_logs`: score every machine id
occurring in the sensor log (first-seen order) and write `anomalies`,
`failing_machines`, `failure_probability` and `current_step`. -/
def ingest_sensor_logs (cfg : Config) (st : ManufacturingState) : ManufacturingState :=
  let res := ingestLoop cfg st.sensor_logs (uniqueIds st.sensor_logs)
  { st with
    anomalies := res.1
    failing_machines := res.2.1
    failure_probability := res.2.2
    current_step := "sensor_done" }

/-- Step 2, `analyze_graph_impact`: one `get_failure_impact` per failing
machine (in `failing_machines` order, dict in insertion order) plus one
full-graph snapshot. -/
def analyze_graph_impact (agent : Agent) (st : ManufacturingState) : ManufacturingState :=
  { st with
    impact_analysis := st.failing_machines.map fun m => (m, get_failure_impact agent.neo4j m)
    graph_context := get_full_graph_summary agent.neo4j
    current_step := "graph_done" }

/-- Textual rendering of one anomaly record inside the root-cause prompt
(embedding of `json.dumps(state["anomalies"], indent=2)`). -/
def anomalyText (a : Anomaly) : String :=
  a.machine_id ++ " failure_probability " ++ toString a.failure_probability
    ++ " avg_temperature " ++ toString a.avg_temperature
    ++ " avg_vibration " ++ toString a.avg_vibration
    ++ " avg_pressure " ++ toString a.avg_pressure
    ++ " error_count " ++ toString a.error_count
    ++ " reasons " ++ String.intercalate "; " a.reasons

/-- Rendering of one maintenance-history row (embedding of the dataframe's
`to_string()`). -/
def maintText (r : MaintRecord) : String :=
  r.machine_id ++ " " ++ r.maintenance_date ++ " " ++ r.mtype ++ " "
    ++ r.description ++ " " ++ r.technician ++ " " ++ r.vendor ++ " "
    ++ toString r.cost ++ " " ++ toString r.downtime_hours

def graphContextText (l : List EdgeSummary) : String :=
  String.intercalate "\n"
    (l.map fun r => r.from_name ++ " --[" ++ r.relationship ++ "]--> " ++ r.to_name)

/-- Step 3, `identify_root_cause`: one chat call over anomalies, the
maintenance history filtered to the failing machines, and the graph edge
summary; writes `root_cause_analysis` and `current_step`. -/
def identify_root_cause (agent : Agent) (st : ManufacturingState) : ManufacturingState :=
  let maintenance_str := String.intercalate "\n"
    ((st.maintenance_history.filter fun r =>
        st.failing_machines.contains r.machine_id).map maintText)
  let graph_str := graphContextText st.graph_context
  let prompt :=
    "You are a manufacturing engineer.\n\nANOMALIES DETECTED:\n"
      ++ String.intercalate "\n" (st.anomalies.map anomalyText)
      ++ "\n\nPAST MAINTENANCE HISTORY:\n" ++ maintenance_str
      ++ "\n\nMACHINE DEPENDENCY MAP:\n" ++ graph_str
      ++ "\n\nPlease provide:\n1. Root cause for each failing machine\n"
      ++ "2. Is this a recurring problem?\n3. Risk of other machines failing next\n"
      ++ "4. Estimated time before complete failure\n"
  { st with
    root_cause_analysis := agent.llm "You are a predictive maintenance expert." prompt
    current_step := "rootcause_done" }

/-- Rendering of `impact_analysis` inside the maintenance-plan prompt
(embedding of `json.dumps(state["impact_analysis"], indent=2)`). -/
def impactText (l : List (String × FailureImpact)) : String :=
  String.intercalate "\n" (l.map fun mi =>
    mi.1 ++ " affected "
      ++ String.intercalate ", " (mi.2.affected_machines.map fun a => a.affected_id)
      ++ " lines "
      ++ String.intercalate ", " (mi.2.impacted_lines.map fun pl => pl.line_name))

/-- Step 4, `generate_maintenance_plan`. -/
def generate_maintenance_plan (agent : Agent) (st : ManufacturingState) : ManufacturingState :=
  let prompt :=
    "Based on this analysis create a maintenance plan.\n\nROOT CAUSE FOUND:\n"
      ++ st.root_cause_analysis
      ++ "\n\nFACTORY IMPACT:\n" ++ impactText st.impact_analysis
      ++ "\n\nCreate a plan with these sections:\n1. IMMEDIATE ACTIONS\n"
      ++ "2. SHORT TERM ACTIONS\n3. PREVENTION PLAN\n4. COST ESTIMATE\n"
  { st with
    maintenance_plan := agent.llm "You are a maintenance planning expert." prompt
    current_step := "plan_done" }

/-- Step 5, `generate_executive_summary`: the impacted-line names collected
into a set across `impact_analysis`, a summary prompt quoting the first 400
characters of the two earlier narratives; writes `executive_summary` and
`current_step`. -/
def generate_executive_summary (agent : Agent) (st : ManufacturingState) : ManufacturingState :=
  let impacted_lines := distinctKeepFirst
    (st.impact_analysis.flatMap fun mi => mi.2.impacted_lines.map fun pl => pl.line_name)
  let prompt :=
    "Write a simple 1 page summary for the Plant Manager.\n\nSITUATION:\n- "
      ++ toString st.failing_machines.length ++ " machine(s) about to fail\n"
      ++ "- Production lines at risk: " ++ String.intercalate ", " impacted_lines
      ++ "\n- Failing machines: " ++ String.intercalate ", " st.failing_machines
      ++ "\n\nROOT CAUSE SUMMARY:\n" ++ st.root_cause_analysis.take 400
      ++ "\n\nMAINTENANCE PLAN SUMMARY:\n" ++ st.maintenance_plan.take 400
      ++ "\n\nWrite using these sections:\n1. What is happening right now\n"
      ++ "2. Business impact if ignored\n3. Top 3 actions needed immediately\n"
      ++ "4. Expected outcome if actions taken\n5. Management approval needed\n\n"
      ++ "Use simple language. No technical jargon.\n"
  { st with
    executive_summary := agent.llm "You write reports for plant managers." prompt
    current_step := "complete" }

/-- The compiled LangGraph workflow as data: named nodes, directed edges
(`"END"` the terminal marker) and the entry point — exactly what
`build_workflow` registers. -/
structure CompiledWorkflow where
  nodes : List (String × (ManufacturingState → ManufacturingState))
  edges : List (String × String)
  entry : String

/-- `ManufacturingAgent.build_workflow`. -/
def build_workflow (cfg : Config) (agent : Agent) : CompiledWorkflow :=
  { nodes :=
      [ ("ingest_logs", ingest_sensor_logs cfg),
        ("graph_impact", analyze_graph_impact agent),
        ("root_cause", identify_root_cause agent),
        ("maintenance_plan", generate_maintenance_plan agent),
        ("exec_summary", generate_executive_summary agent) ]
    edges :=
      [ ("ingest_logs", "graph_impact"),
        ("graph_impact", "root_cause"),
        ("root_cause", "maintenance_plan"),
        ("maintenance_plan", "exec_summary"),
        ("exec_summary", "END") ]
    entry := "ingest_logs" }

/-- LangGraph execution: from the current node, run its stage function and
follow the unique outgoing edge until `END` (fuel-bounded; the graph at hand
terminates after five steps). -/
def runFrom (w : CompiledWorkflow) : Nat → String → ManufacturingState → ManufacturingState
  | 0, _, st => st
  | fuel+1, cur, st =>
    if cur == "END" then st else
    match w.nodes.lookup cur with
    | none => st
    | some f =>
      let st2 := f st
      match w.edges.lookup cur with
      | none => st2
      | some nxt => runFrom w fuel nxt st2

/-- The node names executed, in order (independent of the state: the edge
followed out of a node never looks at the state — the graph is branch-free). -/
def visitedFrom (w : CompiledWorkflow) : Nat → String → List String
  | 0, _ => []
  | fuel+1, cur =>
    if cur == "END" then [] else
    match w.nodes.lookup cur with
    | none => []
    | some _ =>
      cur :: (match w.edges.lookup cur with
      | none => []
      | some nxt => visitedFrom w fuel nxt)

/-- `workflow.invoke(initial_state)`. -/
def invokeWorkflow (w : CompiledWorkflow) (st : ManufacturingState) : ManufacturingState :=
  runFrom w 16 w.entry st

/-- One full pipeline run: build the workflow and invoke it. -/
def runWorkflow (cfg : Config) (agent : Agent) (st : ManufacturingState) : ManufacturingState :=
  invokeWorkflow (build_workflow cfg agent) st

/-! ## Specification-side notions used to state the claims -/

/-- `chainFrom E a x es`: the edge list `es` is a dependency chain from
machine id `a` to machine id `x` drawn from the edge multiset `E` (edges may
repeat); the empty chain relates `a` to itself. -/
def chainFrom (E : List DependsOnEdge) : String → String → List DependsOnEdge → Prop
  | a, x, [] => a = x
  | a, x, e :: es => e ∈ E ∧ e.src = a ∧ chainFrom E e.dst x es

/-- Machine `a` depends on machine `x` through some chain of length 1..3. -/
def dependsWithin3 (E : List DependsOnEdge) (a x : String) : Prop :=
  ∃ es, chainFrom E a x es ∧ 1 ≤ es.length ∧ es.length ≤ 3

/-- Machine `a` is within 0..3 dependency hops of machine `x`
(hop 0: `a = x`). -/
def withinHops3 (E : List DependsOnEdge) (a x : String) : Prop :=
  ∃ es, chainFrom E a x es ∧ es.length ≤ 3

/-- Spec-side description of the score: the sum of exactly the triggered
weighted contributions (temperature, vibration, errors, pressure). -/
def contribSum (cfg : Config) (data : List Reading) : ℚ :=
  (if listMean (fun r => r.temperature) data > cfg.CRITICAL_TEMP_THRESHOLD then 35/100 else 0)
  + (if listMean (fun r => r.vibration) data > cfg.CRITICAL_VIBRATION_THRESHOLD then 35/100 else 0)
  + (if (data.filter (fun r => r.error_code != "NONE")).length > 3 then 20/100 else 0)
  + (if listMean (fun r => r.pressure) data < 85 then 10/100 else 0)

/-- Spec-side description of the reasons sequence: only the triggered
factors, always in the order temperature, vibration, errors, pressure. -/
def triggeredReasons (cfg : Config) (data : List Reading) : List String :=
  (if listMean (fun r => r.temperature) data > cfg.CRITICAL_TEMP_THRESHOLD then
      [highTempReason (listMean (fun r => r.temperature) data)] else [])
  ++ (if listMean (fun r => r.vibration) data > cfg.CRITICAL_VIBRATION_THRESHOLD then
      [highVibrationReason (listMean (fun r => r.vibration) data)] else [])
  ++ (if (data.filter (fun r => r.error_code != "NONE")).length > 3 then
      [errorsReason (data.filter (fun r => r.error_code != "NONE")).length] else [])
  ++ (if listMean (fun r => r.pressure) data < 85 then
      [lowPressureReason (listMean (fun r => r.pressure) data)] else [])

/-- Invariant characterizing the members of `pathsToLen R x _`: every hop is
a stored relationship and consecutive hops meet (`isPathTo` reads the list
front to back, ending at `x`). -/
def isPathTo (R : List (Nat × DependsOnEdge)) (x : String) :
    List (Nat × DependsOnEdge) → Prop
  | [] => True
  | r :: p => r ∈ R ∧ r.2.dst = pathStart x p ∧ isPathTo R x p


/-- A clearly failing sample reading (the spec §8 concrete scenario:
temperature 92, vibration 9.5, pressure 78, an error code set). -/
def sampleReading : Reading :=
  ⟨"M1", "Machine One", "CNC", "2026-01-01 00:00:00", 92, 95/10, 78, 1100, "E001"⟩

/-- A healthy sample reading (spec §8 scenario: 72 / 4.0 / 102 / NONE). -/
def normalReading : Reading :=
  ⟨"M1", "Machine One", "CNC", "2026-01-01 00:00:00", 72, 4, 102, 1500, "NONE"⟩

/-- The initial pipeline state over a given sensor log: all derived fields
empty and `current_step = "start"`, as `main.py` / `app.py` build it. -/
def initState (df : List Reading) : ManufacturingState :=
  ⟨df, [], [], [], [], [], [], "", "", "", "start", []⟩

def sampleState : ManufacturingState := initState [sampleReading]

def normalState : ManufacturingState := initState [normalReading]

def emptyState : ManufacturingState := initState []

/-- An agent over an empty store whose text-generation service always
replies "ok". -/
def stubAgent : Agent := ⟨emptyStore, fun _ _ => "ok"⟩

/-- A failure threshold of 2.0, outside the documented range [0.50, 0.95]. -/
def badConfig : Config := { defaultConfig with FAILURE_THRESHOLD := 2 }

/-! ## Helper lemmas -/

theorem mem_foldl_push [DecidableEq α] (l : List α) : ∀ (acc : List α) (a : α),
    a ∈ l.foldl (fun acc x => if x ∈ acc then acc else acc ++ [x]) acc ↔ a ∈ acc ∨ a ∈ l := by
  induction l with
  | nil => simp
  | cons x xs ih =>
    intro acc a
    simp only [List.foldl_cons]
    rw [ih]
    by_cases hx : x ∈ acc
    · by_cases hax : a = x <;> simp [hx, hax]
    · by_cases hax : a = x <;> simp [hx, hax]

theorem nodup_foldl_push [DecidableEq α] (l : List α) : ∀ acc : List α, acc.Nodup →
    (l.foldl (fun acc x => if x ∈ acc then acc else acc ++ [x]) acc).Nodup := by
  induction l with
  | nil => simp
  | cons x xs ih =>
    intro acc hacc
    simp only [List.foldl_cons]
    by_cases hx : x ∈ acc
    · simpa [hx] using ih acc hacc
    · simp only [hx, if_false]
      exact ih (acc ++ [x]) (by simp [List.nodup_append, hacc, hx])

theorem mem_distinctKeepFirst [DecidableEq α] {l : List α} {a : α} :
    a ∈ distinctKeepFirst l ↔ a ∈ l := by
  unfold distinctKeepFirst
  rw [mem_foldl_push]
  simp

theorem nodup_distinctKeepFirst [DecidableEq α] (l : List α) :
    (distinctKeepFirst l).Nodup :=
  nodup_foldl_push l [] (by simp)

theorem mem_uniqueIds {df : List Reading} {m : String} :
    m ∈ uniqueIds df ↔ ∃ r ∈ df, r.machine_id = m := by
  unfold uniqueIds
  rw [mem_distinctKeepFirst]
  simp [eq_comm]

theorem nodup_uniqueIds (df : List Reading) : (uniqueIds df).Nodup :=
  nodup_distinctKeepFirst _

theorem round2_div100 (n : ℤ) : round2 ((n : ℚ)/100) = (n : ℚ)/100 := by
  unfold round2
  rw [div_mul_cancel₀ _ (by norm_num : (100:ℚ) ≠ 0), round_intCast]

theorem scoreWindow_score (cfg : Config) (data : List Reading) :
    (scoreWindow cfg data).score = round2 (contribSum cfg data) := by
  unfold scoreWindow contribSum
  dsimp only
  split_ifs <;> (congr 1 <;> ring)

theorem scoreWindow_reasons (cfg : Config) (data : List Reading) :
    (scoreWindow cfg data).reasons = triggeredReasons cfg data := by
  unfold scoreWindow triggeredReasons
  dsimp only
  split_ifs <;> simp

theorem contribSum_as_int (cfg : Config) (data : List Reading) :
    ∃ n : ℤ, 0 ≤ n ∧ n ≤ 100 ∧ contribSum cfg data = (n : ℚ)/100 := by
  unfold contribSum
  refine ⟨(if listMean (fun r => r.temperature) data > cfg.CRITICAL_TEMP_THRESHOLD then 35 else 0)
    + (if listMean (fun r => r.vibration) data > cfg.CRITICAL_VIBRATION_THRESHOLD then 35 else 0)
    + (if (data.filter (fun r => r.error_code != "NONE")).length > 3 then 20 else 0)
    + (if listMean (fun r => r.pressure) data < 85 then 10 else 0), ?_, ?_, ?_⟩ <;>
    split_ifs <;> norm_num

theorem score_round_fix (cfg : Config) (data : List Reading) :
    round2 (contribSum cfg data) = contribSum cfg data := by
  obtain ⟨n, -, -, hn⟩ := contribSum_as_int cfg data
  rw [hn, round2_div100]

theorem score_nonneg (cfg : Config) (data : List Reading) :
    0 ≤ (scoreWindow cfg data).score := by
  rw [scoreWindow_score, score_round_fix]
  obtain ⟨n, h0, h1, hn⟩ := contribSum_as_int cfg data
  rw [hn]
  positivity

theorem score_le_one (cfg : Config) (data : List Reading) :
    (scoreWindow cfg data).score ≤ 1 := by
  rw [scoreWindow_score, score_round_fix]
  obtain ⟨n, h0, h1, hn⟩ := contribSum_as_int cfg data
  rw [hn]
  rw [div_le_one (by norm_num : (0:ℚ) < 100)]
  exact_mod_cast h1

theorem ingestLoop_anomalies (cfg : Config) (df : List Reading) : ∀ ids : List String,
    (ingestLoop cfg df ids).1 =
      (ids.filter fun m => decide (cfg.FAILURE_THRESHOLD ≤ machineScore cfg df m)).map
        (mkAnomaly cfg df) := by
  intro ids
  induction ids with
  | nil => simp [ingestLoop]
  | cons m rest ih =>
    by_cases h : cfg.FAILURE_THRESHOLD ≤ (machineResult cfg df m).score <;>
      simp [ingestLoop, machineScore, h, List.filter_cons, ih]

theorem ingestLoop_failing (cfg : Config) (df : List Reading) : ∀ ids : List String,
    (ingestLoop cfg df ids).2.1 =
      ids.filter fun m => decide (cfg.FAILURE_THRESHOLD ≤ machineScore cfg df m) := by
  intro ids
  induction ids with
  | nil => simp [ingestLoop]
  | cons m rest ih =>
    by_cases h : cfg.FAILURE_THRESHOLD ≤ (machineResult cfg df m).score <;>
      simp [ingestLoop, machineScore, h, List.filter_cons, ih]

theorem ingestLoop_probability (cfg : Config) (df : List Reading) : ∀ ids : List String,
    (ingestLoop cfg df ids).2.2 = ids.map fun m => (m, machineScore cfg df m) := by
  intro ids
  induction ids with
  | nil => simp [ingestLoop]
  | cons m rest ih =>
    by_cases h : cfg.FAILURE_THRESHOLD ≤ (machineResult cfg df m).score <;>
      simp [ingestLoop, machineScore, h, ih]

theorem lookup_map_score (cfg : Config) (df : List Reading) (m : String) :
    ∀ ids : List String,
    List.lookup m (ids.map fun i => (i, machineScore cfg df i)) =
      if m ∈ ids then some (machineScore cfg df m) else none := by
  intro ids
  induction ids with
  | nil => simp
  | cons i rest ih =>
    by_cases hm : m = i
    · subst hm
      simp [List.lookup]
    · simp [List.lookup, beq_false_of_ne hm, ih, hm]

theorem tail_n_ne_nil {l : List α} (h : l ≠ []) (n : Nat) (hn : 1 ≤ n) :
    tail_n n l ≠ [] := by
  unfold tail_n
  have hl : 0 < l.length := List.length_pos.mpr h
  intro hcontra
  have := congrArg List.length hcontra
  rw [List.length_drop] at this
  simp at this
  omega

theorem snd_mem_of_mem_enumFrom : ∀ (l : List α) (k : Nat) (r : Nat × α),
    r ∈ List.enumFrom k l → r.2 ∈ l := by
  intro l
  induction l with
  | nil => simp [List.enumFrom]
  | cons a as ih =>
    intro k r hr
    simp only [List.enumFrom, List.mem_cons] at hr
    rcases hr with h | h
    · subst h; simp
    · exact List.mem_cons_of_mem _ (ih (k+1) r h)

theorem exists_idx_mem_enumFrom : ∀ (l : List α) (k : Nat) (e : α), e ∈ l →
    ∃ i, (i, e) ∈ List.enumFrom k l := by
  intro l
  induction l with
  | nil => simp
  | cons a as ih =>
    intro k e he
    rcases List.mem_cons.mp he with h | h
    · exact ⟨k, by simp [List.enumFrom, h]⟩
    · obtain ⟨i, hi⟩ := ih (k+1) e h
      exact ⟨i, by simp [List.enumFrom, hi]⟩

theorem snd_mem_of_mem_enum {l : List α} {r : Nat × α} (h : r ∈ l.enum) : r.2 ∈ l :=
  snd_mem_of_mem_enumFrom l 0 r h

theorem exists_idx_mem_enum {l : List α} {e : α} (h : e ∈ l) : ∃ i, (i, e) ∈ l.enum :=
  exists_idx_mem_enumFrom l 0 e h

theorem mem_pathsToLen (R : List (Nat × DependsOnEdge)) (x : String) :
    ∀ (n : Nat) (p : List (Nat × DependsOnEdge)),
    p ∈ pathsToLen R x n ↔ p.length = n ∧ p.Nodup ∧ isPathTo R x p := by
  intro n
  induction n with
  | zero =>
    intro p
    simp only [pathsToLen, List.mem_singleton]
    constructor
    · rintro rfl
      exact ⟨rfl, List.nodup_nil, trivial⟩
    · rintro ⟨hl, -, -⟩
      exact List.length_eq_zero.mp hl
  | succ n ih =>
    intro p
    simp only [pathsToLen, List.mem_flatMap, List.mem_map, List.mem_filter]
    constructor
    · rintro ⟨q, hq, r, ⟨hrR, hcond⟩, rfl⟩
      obtain ⟨hql, hqnd, hqpath⟩ := (ih q).mp hq
      rw [Bool.and_eq_true, beq_iff_eq, decide_eq_true_eq] at hcond
      refine ⟨by simp [hql], ?_, ?_⟩
      · exact List.nodup_cons.mpr ⟨hcond.2, hqnd⟩
      · exact ⟨hrR, hcond.1, hqpath⟩
    · rintro ⟨hl, hnd, hpath⟩
      match p with
      | r :: q =>
        obtain ⟨hrR, hdst, hqpath⟩ := hpath
        obtain ⟨hnotin, hqnd⟩ := List.nodup_cons.mp hnd
        refine ⟨q, (ih q).mpr ⟨by simpa using hl, hqnd, hqpath⟩, r, ⟨hrR, ?_⟩, rfl⟩
        rw [Bool.and_eq_true, beq_iff_eq, decide_eq_true_eq]
        exact ⟨hdst, hnotin⟩

theorem isPathTo_chainFrom (E : List DependsOnEdge) (x : String) :
    ∀ p, isPathTo E.enum x p →
      chainFrom E (pathStart x p) x (p.map fun r => r.2) := by
  intro p
  induction p with
  | nil =>
    intro _
    simp [pathStart, chainFrom]
  | cons r q ih =>
    rintro ⟨hrR, hdst, hq⟩
    refine ⟨snd_mem_of_mem_enum hrR, rfl, ?_⟩
    rw [hdst]
    exact ih hq

theorem chain_to_path (E : List DependsOnEdge) (x : String) :
    ∀ (es : List DependsOnEdge) (a : String), chainFrom E a x es → es.Nodup →
    ∃ p : List (Nat × DependsOnEdge), isPathTo E.enum x p ∧ p.Nodup ∧
      pathStart x p = a ∧ (p.map fun r => r.2) = es := by
  intro es
  induction es with
  | nil =>
    intro a h _
    exact ⟨[], trivial, List.nodup_nil, h.symm, rfl⟩
  | cons e es' ih =>
    rintro a ⟨heE, hesrc, hchain⟩ hnd
    obtain ⟨i, hi⟩ := exists_idx_mem_enum heE
    obtain ⟨p', hp'path, hp'nd, hp'start, hp'map⟩ :=
      ih e.dst hchain (List.Nodup.of_cons hnd)
    refine ⟨(i, e) :: p', ⟨hi, hp'start.symm, hp'path⟩, ?_, hesrc, by simp [hp'map]⟩
    refine List.nodup_cons.mpr ⟨?_, hp'nd⟩
    intro hmem
    have : e ∈ es' := by
      rw [← hp'map]
      exact List.mem_map.mpr ⟨(i, e), hmem, rfl⟩
    exact (List.nodup_cons.mp hnd).1 this

theorem chain_reduce2 (E : List DependsOnEdge) (x a : String) (e1 e2 : DependsOnEdge)
    (h : chainFrom E a x [e1, e2]) :
    ∃ fs, chainFrom E a x fs ∧ fs.Nodup ∧ 1 ≤ fs.length ∧ fs.length ≤ 2 := by
  obtain ⟨h1E, h1src, h2E, h2src, h2dst⟩ := h
  by_cases he : e1 = e2
  · refine ⟨[e1], ⟨h1E, h1src, ?_⟩, by simp, by simp, by simp⟩
    rw [he] at h2src ⊢
    rw [show e2.dst = x from h2dst]
    exact rfl
  · exact ⟨[e1, e2], ⟨h1E, h1src, h2E, h2src, h2dst⟩, by simp [he], by simp, by simp⟩

theorem chain_reduce3 (E : List DependsOnEdge) (x a : String) (e1 e2 e3 : DependsOnEdge)
    (h : chainFrom E a x [e1, e2, e3]) :
    ∃ fs, chainFrom E a x fs ∧ fs.Nodup ∧ 1 ≤ fs.length ∧ fs.length ≤ 3 := by
  obtain ⟨h1E, h1src, h2E, h2src, h3E, h3src, h3dst⟩ := h
  have h3dst' : e3.dst = x := h3dst
  by_cases h12 : e1 = e2
  · have h2src' : e2.src = a := by rw [← h12]; exact h1src
    obtain ⟨fs, hc, hnd, hl1, hl2⟩ :=
      chain_reduce2 E x a e2 e3 ⟨h2E, h2src', h3E, h3src, h3dst⟩
    exact ⟨fs, hc, hnd, hl1, by omega⟩
  · by_cases h23 : e2 = e3
    · have h3src' : e3.src = e1.dst := by rw [← h23, h2src]
      obtain ⟨fs, hc, hnd, hl1, hl2⟩ :=
        chain_reduce2 E x a e1 e3 ⟨h1E, h1src, h3E, h3src', h3dst⟩
      exact ⟨fs, hc, hnd, hl1, by omega⟩
    · by_cases h13 : e1 = e3
      · refine ⟨[e1], ⟨h1E, h1src, ?_⟩, by simp, by simp, by simp⟩
        rw [h13, h3dst']
        exact rfl
      · exact ⟨[e1, e2, e3], ⟨h1E, h1src, h2E, h2src, h3E, h3src, h3dst⟩,
          by simp [h12, h13, h23], by simp, by simp⟩

theorem chain_reduce03 (E : List DependsOnEdge) (x a : String) (es : List DependsOnEdge)
    (h : chainFrom E a x es) (h3 : es.length ≤ 3) :
    ∃ fs, chainFrom E a x fs ∧ fs.Nodup ∧ fs.length ≤ 3 ∧
      (1 ≤ es.length → 1 ≤ fs.length) := by
  match es, h, h3 with
  | [], h, _ => exact ⟨[], h, List.nodup_nil, by simp, by simp⟩
  | [e1], h, _ =>
    exact ⟨[e1], h, by simp, by simp, by simp⟩
  | [e1, e2], h, _ =>
    obtain ⟨fs, hc, hnd, hl1, hl2⟩ := chain_reduce2 E x a e1 e2 h
    exact ⟨fs, hc, hnd, by omega, fun _ => hl1⟩
  | [e1, e2, e3], h, _ =>
    obtain ⟨fs, hc, hnd, hl1, hl2⟩ := chain_reduce3 E x a e1 e2 e3 h
    exact ⟨fs, hc, hnd, hl2, fun _ => hl1⟩

theorem mem_machinesWithId {g : GraphState} {y : String} {a : MachineNode} :
    a ∈ machinesWithId g y ↔ a ∈ g.machines ∧ a.id = y := by
  simp [machinesWithId]

theorem mem_linesWithId {g : GraphState} {y : String} {l : LineNode} :
    l ∈ linesWithId g y ↔ l ∈ g.production_lines ∧ l.id = y := by
  simp [linesWithId]

theorem mem_affected_ids (g : GraphState) (x i : String) :
    i ∈ ((get_failure_impact g x).affected_machines.map fun r => r.affected_id) ↔
      (∃ f ∈ g.machines, f.id = x) ∧ (∃ a ∈ g.machines, a.id = i) ∧
        dependsWithin3 g.depends_on i x := by
  constructor
  · intro h
    rw [List.mem_map] at h
    obtain ⟨row, hrow, hrowid⟩ := h
    simp only [get_failure_impact] at hrow
    unfold affectedRows at hrow
    rw [List.mem_flatMap] at hrow
    obtain ⟨f, hf, hrow⟩ := hrow
    rw [List.mem_flatMap] at hrow
    obtain ⟨p, hp, hrow⟩ := hrow
    rw [List.mem_map] at hrow
    obtain ⟨a, ha, rfl⟩ := hrow
    rw [List.mem_flatMap] at hp
    obtain ⟨n, hn, hp⟩ := hp
    rw [mem_pathsToLen] at hp
    obtain ⟨hlen, hnd, hpath⟩ := hp
    have hfm := mem_machinesWithId.mp hf
    have ham := mem_machinesWithId.mp ha
    have hpi : pathStart x p = i := by rw [← ham.2]; exact hrowid
    have hc := isPathTo_chainFrom g.depends_on x p hpath
    rw [hpi] at hc
    have hbound : 1 ≤ n ∧ n ≤ 3 := by
      simp only [List.mem_cons, List.not_mem_nil, or_false] at hn
      omega
    refine ⟨⟨f, hfm.1, hfm.2⟩, ⟨a, ham.1, hrowid⟩, p.map (fun r => r.2), hc, ?_, ?_⟩
    · simp only [List.length_map, hlen]; exact hbound.1
    · simp only [List.length_map, hlen]; exact hbound.2
  · rintro ⟨⟨f, hfm, hfx⟩, ⟨a, ham, hai⟩, es, hchain, hl1, hl3⟩
    obtain ⟨fs, hfc, hfnd, hfl3, hfl1'⟩ := chain_reduce03 g.depends_on x i es hchain hl3
    have hfl1 : 1 ≤ fs.length := hfl1' hl1
    obtain ⟨p, hppath, hpnd, hpstart, hpmap⟩ := chain_to_path g.depends_on x fs i hfc hfnd
    have hplen : p.length = fs.length := by rw [← hpmap]; simp
    simp only [get_failure_impact]
    refine List.mem_map.mpr ⟨⟨a.id, a.name, a.criticality⟩, ?_, hai⟩
    unfold affectedRows
    rw [List.mem_flatMap]
    refine ⟨f, mem_machinesWithId.mpr ⟨hfm, hfx⟩, ?_⟩
    rw [List.mem_flatMap]
    refine ⟨p, List.mem_flatMap.mpr ⟨fs.length, ?_, (mem_pathsToLen _ _ _ _).mpr ⟨hplen, hpnd, hppath⟩⟩, ?_⟩
    · simp only [List.mem_cons, List.not_mem_nil, or_false]
      omega
    · exact List.mem_map.mpr ⟨a, mem_machinesWithId.mpr ⟨ham, by rw [hpstart]; exact hai⟩, rfl⟩

theorem mem_impacted_lines (g : GraphState) (x : String) (pr : LineRow) :
    pr ∈ (get_failure_impact g x).impacted_lines ↔
      (∃ f ∈ g.machines, f.id = x) ∧
      ∃ m ∈ g.machines, withinHops3 g.depends_on m.id x ∧
        ∃ e ∈ g.feeds_into, e.machine = m.id ∧
          ∃ pl ∈ g.production_lines, pl.id = e.line ∧ pr = ⟨pl.name, pl.plant⟩ := by
  simp only [get_failure_impact]
  rw [mem_distinctKeepFirst]
  constructor
  · intro h
    unfold lineRowsRaw at h
    rw [List.mem_flatMap] at h
    obtain ⟨f, hf, h⟩ := h
    rw [List.mem_flatMap] at h
    obtain ⟨p, hp, h⟩ := h
    rw [List.mem_flatMap] at h
    obtain ⟨m, hm, h⟩ := h
    rw [List.mem_flatMap] at h
    obtain ⟨e, he, h⟩ := h
    rw [List.mem_map] at h
    obtain ⟨pl, hpl, rfl⟩ := h
    rw [List.mem_flatMap] at hp
    obtain ⟨n, hn, hp⟩ := hp
    rw [mem_pathsToLen] at hp
    obtain ⟨hlen, hnd, hpath⟩ := hp
    have hfm := mem_machinesWithId.mp hf
    have hmm := mem_machinesWithId.mp hm
    have hee := List.mem_filter.mp he
    have hpll := mem_linesWithId.mp hpl
    have hc := isPathTo_chainFrom g.depends_on x p hpath
    rw [← hmm.2] at hc
    have hbound : n ≤ 3 := by
      simp only [List.mem_cons, List.not_mem_nil, or_false] at hn
      omega
    refine ⟨⟨f, hfm.1, hfm.2⟩, m, hmm.1,
      ⟨p.map (fun r => r.2), hc, by simp only [List.length_map, hlen]; exact hbound⟩,
      e, hee.1, by simpa using hee.2, pl, hpll.1, hpll.2, rfl⟩
  · rintro ⟨⟨f, hfm, hfx⟩, m, hmm, ⟨es, hchain, hl3⟩, e, hef, hem, pl, hplm, hplid, rfl⟩
    obtain ⟨fs, hfc, hfnd, hfl3, -⟩ := chain_reduce03 g.depends_on x m.id es hchain hl3
    obtain ⟨p, hppath, hpnd, hpstart, hpmap⟩ := chain_to_path g.depends_on x fs m.id hfc hfnd
    have hplen : p.length = fs.length := by rw [← hpmap]; simp
    unfold lineRowsRaw
    rw [List.mem_flatMap]
    refine ⟨f, mem_machinesWithId.mpr ⟨hfm, hfx⟩, ?_⟩
    rw [List.mem_flatMap]
    refine ⟨p, List.mem_flatMap.mpr ⟨fs.length, ?_, (mem_pathsToLen _ _ _ _).mpr ⟨hplen, hpnd, hppath⟩⟩, ?_⟩
    · simp only [List.mem_cons, List.not_mem_nil, or_false]
      omega
    · rw [List.mem_flatMap]
      refine ⟨m, mem_machinesWithId.mpr ⟨hmm, hpstart.symm⟩, ?_⟩
      rw [List.mem_flatMap]
      refine ⟨e, List.mem_filter.mpr ⟨hef, by simpa using hem⟩, ?_⟩
      exact List.mem_map.mpr ⟨pl, mem_linesWithId.mpr ⟨hplm, hplid⟩, rfl⟩

theorem runWorkflow_as_composition (cfg : Config) (agent : Agent) (st : ManufacturingState) :
    runWorkflow cfg agent st =
      generate_executive_summary agent (generate_maintenance_plan agent
        (identify_root_cause agent (analyze_graph_impact agent
          (ingest_sensor_logs cfg st)))) := rfl

theorem visitedFrom_build_workflow (cfg : Config) (agent : Agent) :
    visitedFrom (build_workflow cfg agent) 16 (build_workflow cfg agent).entry =
      ["ingest_logs", "graph_impact", "root_cause", "maintenance_plan", "exec_summary"] := rfl

theorem runWorkflow_current_step (cfg : Config) (agent : Agent) (st : ManufacturingState) :
    (runWorkflow cfg agent st).current_step = "complete" := rfl

/-! ## Claim theorems -/

/-- C1: for every machine with at least one reading in the sensor log, the
scoring stage records in `failure_probability` exactly the score of its
trailing window of up to 24 readings, equal to the sum of exactly the
triggered contributions (+0.35 average temperature > 85.0, +0.35 average
vibration > 8.5, +0.20 error count > 3, +0.10 average pressure < 85)
rounded to 2 decimal places; the score lies in [0, 1]; and the reasons
sequence lists only the triggered factors, always in the order temperature,
vibration, errors, pressure. -/
theorem C1_risk_score_weighted_sum (st : ManufacturingState) (m : String)
    (h : m ∈ uniqueIds st.sensor_logs) :
    ((ingest_sensor_logs defaultConfig st).failure_probability.lookup m =
        some (machineScore defaultConfig st.sensor_logs m))
    ∧ machineScore defaultConfig st.sensor_logs m =
        round2 (contribSum defaultConfig (machineWindow st.sensor_logs m))
    ∧ 0 ≤ machineScore defaultConfig st.sensor_logs m
    ∧ machineScore defaultConfig st.sensor_logs m ≤ 1
    ∧ (machineResult defaultConfig st.sensor_logs m).reasons =
        triggeredReasons defaultConfig (machineWindow st.sensor_logs m) := by
  refine ⟨?_, ?_, ?_, ?_, ?_⟩
  · simp only [ingest_sensor_logs]
    rw [ingestLoop_probability, lookup_map_score, if_pos h]
  · exact scoreWindow_score defaultConfig (machineWindow st.sensor_logs m)
  · exact score_nonneg defaultConfig (machineWindow st.sensor_logs m)
  · exact score_le_one defaultConfig (machineWindow st.sensor_logs m)
  · exact scoreWindow_reasons defaultConfig (machineWindow st.sensor_logs m)

/-- C1 witness: the scoring properties instantiated at a concrete one-row
sensor log. -/
theorem C1_witness :
    "M1" ∈ uniqueIds sampleState.sensor_logs ∧
      (0 ≤ machineScore defaultConfig sampleState.sensor_logs "M1" ∧
        machineScore defaultConfig sampleState.sensor_logs "M1" ≤ 1) :=
  ⟨by decide,
    (C1_risk_score_weighted_sum sampleState "M1" (by decide)).2.2.1,
    (C1_risk_score_weighted_sum sampleState "M1" (by decide)).2.2.2.1⟩

/-- C2: after the scoring stage a machine is in `failing_machines` iff it
occurs in the sensor log and its computed score is ≥ `failure_threshold`
(non-strict); `failing_machines` is the filter of the first-seen-ordered
machine-id list, hence preserves first-seen order and has no duplicates. -/
theorem C2_failing_machines_iff_threshold (cfg : Config) (st : ManufacturingState) :
    ((ingest_sensor_logs cfg st).failing_machines =
      (uniqueIds st.sensor_logs).filter
        (fun m => decide (cfg.FAILURE_THRESHOLD ≤ machineScore cfg st.sensor_logs m)))
    ∧ (ingest_sensor_logs cfg st).failing_machines.Nodup
    ∧ ∀ m : String, m ∈ (ingest_sensor_logs cfg st).failing_machines ↔
        (m ∈ uniqueIds st.sensor_logs ∧
          cfg.FAILURE_THRESHOLD ≤ machineScore cfg st.sensor_logs m) := by
  have hfil : (ingest_sensor_logs cfg st).failing_machines =
      (uniqueIds st.sensor_logs).filter
        (fun m => decide (cfg.FAILURE_THRESHOLD ≤ machineScore cfg st.sensor_logs m)) := by
    simp only [ingest_sensor_logs]
    exact ingestLoop_failing cfg st.sensor_logs (uniqueIds st.sensor_logs)
  refine ⟨hfil, ?_, ?_⟩
  · rw [hfil]
    exact (nodup_uniqueIds st.sensor_logs).filter _
  · intro m
    rw [hfil]
    simp [List.mem_filter]

/-- C3: for every graph and machine `X`, a machine id appears among
`get_failure_impact X`'s affected machines iff some machine node carries it
and it depends on `X` through a chain of length 1..3 (so a machine whose
only chains to `X` have length ≥ 4 never appears); a line row appears in
`impacted_lines` iff its production line is fed by some machine within 0..3
dependency hops of `X` (`X` itself at hop 0), and `impacted_lines` carries
no duplicates. -/
theorem C3_failure_impact_depth_bound (g : GraphState) (X : String) :
    (∀ i : String,
      i ∈ ((get_failure_impact g X).affected_machines.map fun r => r.affected_id) ↔
        (∃ f ∈ g.machines, f.id = X) ∧ (∃ a ∈ g.machines, a.id = i) ∧
          dependsWithin3 g.depends_on i X)
    ∧ (∀ pr : LineRow,
      pr ∈ (get_failure_impact g X).impacted_lines ↔
        (∃ f ∈ g.machines, f.id = X) ∧
        ∃ m ∈ g.machines, withinHops3 g.depends_on m.id X ∧
          ∃ e ∈ g.feeds_into, e.machine = m.id ∧
            ∃ pl ∈ g.production_lines, pl.id = e.line ∧ pr = ⟨pl.name, pl.plant⟩)
    ∧ (get_failure_impact g X).impacted_lines.Nodup :=
  ⟨fun i => mem_affected_ids g X i, fun pr => mem_impacted_lines g X pr,
    nodup_distinctKeepFirst _⟩

/-- C4 counterexample: on the fixture graph, `get_failure_impact "M002"`
does NOT list each affected machine once — M005 reaches M002 both directly
and through M001, and the affected query has no `DISTINCT`, so the row list
has a duplicate. -/
theorem C4_counterexample :
    ¬ (((get_failure_impact fixtureGraph "M002").affected_machines.map
        (fun r => r.affected_id)).Nodup) := by decide

/-- C4 amended: on the fixture graph, `get_failure_impact "M002"` returns
affected-machine rows whose id set is exactly {M001, M005} with their
criticalities, but one row per dependency path (M005 twice), and exactly
the impacted-lines set {Engine Assembly Line}. -/
theorem C4_amended_fixture_impact :
    ((get_failure_impact fixtureGraph "M002").affected_machines.count
        ⟨"M001", "CNC Machine A", "High"⟩ = 1)
    ∧ ((get_failure_impact fixtureGraph "M002").affected_machines.count
        ⟨"M005", "Assembly Unit E", "Critical"⟩ = 2)
    ∧ (get_failure_impact fixtureGraph "M002").affected_machines.length = 3
    ∧ distinctKeepFirst ((get_failure_impact fixtureGraph "M002").affected_machines.map
        (fun r => r.affected_id)) = ["M001", "M005"]
    ∧ (get_failure_impact fixtureGraph "M002").impacted_lines =
        [⟨"Engine Assembly Line", "Plant_North"⟩] := by decide

/-- The score of the healthy sample machine evaluates to 0. -/
theorem normal_machine_score_zero :
    machineScore defaultConfig normalState.sensor_logs "M1" = 0 := by
  have hwin : machineWindow normalState.sensor_logs "M1" = [normalReading] := rfl
  unfold machineScore machineResult
  rw [scoreWindow_score, hwin]
  unfold contribSum listMean
  norm_num [normalReading, defaultConfig, round2]

/-- C5 counterexample: machine M1 has a reading in the log and scores 0
(below the default threshold 0.75), yet the scoring stage produces NO
record for it in `anomalies` — the full per-machine record is only created
for machines at or above the failure threshold. -/
theorem C5_counterexample :
    "M1" ∈ uniqueIds normalState.sensor_logs ∧
      (ingest_sensor_logs defaultConfig normalState).anomalies = [] := by
  refine ⟨by decide, ?_⟩
  simp only [ingest_sensor_logs]
  rw [ingestLoop_anomalies]
  have huniq : uniqueIds normalState.sensor_logs = ["M1"] := by decide
  rw [huniq]
  have hsc := normal_machine_score_zero
  simp only [List.filter_cons, List.filter_nil, hsc]
  norm_num [defaultConfig]

/-- C5 amended: the scoring stage produces the full record (score, rounded
averages, error count, ordered reasons) exactly for the machines whose
score reaches the failure threshold, while `failure_probability` receives
one score entry for every machine in the log, in first-seen order. -/
theorem C5_amended_records (cfg : Config) (st : ManufacturingState) :
    (ingest_sensor_logs cfg st).anomalies =
      ((uniqueIds st.sensor_logs).filter
        (fun m => decide (cfg.FAILURE_THRESHOLD ≤ machineScore cfg st.sensor_logs m))).map
        (mkAnomaly cfg st.sensor_logs)
    ∧ (ingest_sensor_logs cfg st).failure_probability =
        (uniqueIds st.sensor_logs).map (fun m => (m, machineScore cfg st.sensor_logs m)) := by
  constructor
  · simp only [ingest_sensor_logs]
    exact ingestLoop_anomalies cfg st.sensor_logs (uniqueIds st.sensor_logs)
  · simp only [ingest_sensor_logs]
    exact ingestLoop_probability cfg st.sensor_logs (uniqueIds st.sensor_logs)

/-- C6: every machine the scoring stage iterates over (those occurring in
the sensor log) has a nonempty window, so the zero-readings skip case never
arises (the skip-and-record-to-errors clause holds vacuously); each such
machine receives its score in `failure_probability`; a machine absent from
the log is skipped silently — it does not appear in `failure_probability` —
and the stage returns with `errors` unchanged and without aborting. -/
theorem C6_data_gap_handling (cfg : Config) (st : ManufacturingState) (m : String) :
    (m ∈ uniqueIds st.sensor_logs →
      machineWindow st.sensor_logs m ≠ [] ∧
      (ingest_sensor_logs cfg st).failure_probability.lookup m =
        some (machineScore cfg st.sensor_logs m))
    ∧ (m ∉ uniqueIds st.sensor_logs →
        (ingest_sensor_logs cfg st).failure_probability.lookup m = none)
    ∧ (ingest_sensor_logs cfg st).errors = st.errors := by
  refine ⟨?_, ?_, rfl⟩
  · intro hm
    constructor
    · obtain ⟨r, hr, hid⟩ := mem_uniqueIds.mp hm
      have hne : rowsFor st.sensor_logs m ≠ [] := by
        intro hc
        have hmem : r ∈ rowsFor st.sensor_logs m := by
          simp [rowsFor, List.mem_filter, hr, hid]
        rw [hc] at hmem
        exact List.not_mem_nil r hmem
      exact tail_n_ne_nil hne 24 (by norm_num)
    · simp only [ingest_sensor_logs]
      rw [ingestLoop_probability, lookup_map_score, if_pos hm]
  · intro hm
    simp only [ingest_sensor_logs]
    rw [ingestLoop_probability, lookup_map_score, if_neg hm]

/-- C7: the compiled workflow visits exactly the five stage nodes once
each, in the fixed linear order; the run equals the five-stage composition;
the stage markers advance start → sensor_done → graph_done →
rootcause_done → plan_done → complete; and a run with zero failing
machines still executes every stage, ends with `current_step = "complete"`,
produces a non-empty executive summary (the narrative service replying
non-empty text), and leaves `impact_analysis` empty. -/
theorem C7_pipeline_linear_order (cfg : Config) (agent : Agent) (st : ManufacturingState)
    (hllm : ∀ s p, agent.llm s p ≠ "") :
    (visitedFrom (build_workflow cfg agent) 16 (build_workflow cfg agent).entry =
      ["ingest_logs", "graph_impact", "root_cause", "maintenance_plan", "exec_summary"])
    ∧ (runWorkflow cfg agent st =
        generate_executive_summary agent (generate_maintenance_plan agent
          (identify_root_cause agent (analyze_graph_impact agent
            (ingest_sensor_logs cfg st)))))
    ∧ (ingest_sensor_logs cfg st).current_step = "sensor_done"
    ∧ (analyze_graph_impact agent (ingest_sensor_logs cfg st)).current_step = "graph_done"
    ∧ (identify_root_cause agent (analyze_graph_impact agent
        (ingest_sensor_logs cfg st))).current_step = "rootcause_done"
    ∧ (generate_maintenance_plan agent (identify_root_cause agent (analyze_graph_impact agent
        (ingest_sensor_logs cfg st)))).current_step = "plan_done"
    ∧ (runWorkflow cfg agent st).current_step = "complete"
    ∧ (runWorkflow cfg agent st).executive_summary ≠ ""
    ∧ ((ingest_sensor_logs cfg st).failing_machines = [] →
        (runWorkflow cfg agent st).impact_analysis = []) := by
  refine ⟨rfl, rfl, rfl, rfl, rfl, rfl, rfl, ?_, ?_⟩
  · exact hllm _ _
  · intro h
    show ((analyze_graph_impact agent (ingest_sensor_logs cfg st)).impact_analysis : List _) = []
    simp [analyze_graph_impact, h]

/-- C7 witness: the pipeline over a stub narrative service and an empty
sensor log (zero failing machines) still completes. -/
theorem C7_witness :
    (∀ s p, stubAgent.llm s p ≠ "") ∧
      ((runWorkflow defaultConfig stubAgent emptyState).current_step = "complete" ∧
        (runWorkflow defaultConfig stubAgent emptyState).executive_summary ≠ "") :=
  ⟨fun _ _ => by show ("ok" : String) ≠ ""; decide,
    (C7_pipeline_linear_order defaultConfig stubAgent emptyState
      (fun _ _ => by show ("ok" : String) ≠ ""; decide)).2.2.2.2.2.2.1,
    (C7_pipeline_linear_order defaultConfig stubAgent emptyState
      (fun _ _ => by show ("ok" : String) ≠ ""; decide)).2.2.2.2.2.2.2.1⟩

/-- C8: each stage writes only its own fields plus `current_step`: every
other `PipelineState` field — in particular the raw `sensor_logs` and
`maintenance_history` inputs and every earlier stage's output — is returned
exactly as it was. -/
theorem C8_stage_frame_conditions (cfg : Config) (agent : Agent) (st : ManufacturingState) :
    ((ingest_sensor_logs cfg st).sensor_logs = st.sensor_logs
      ∧ (ingest_sensor_logs cfg st).maintenance_history = st.maintenance_history
      ∧ (ingest_sensor_logs cfg st).impact_analysis = st.impact_analysis
      ∧ (ingest_sensor_logs cfg st).graph_context = st.graph_context
      ∧ (ingest_sensor_logs cfg st).root_cause_analysis = st.root_cause_analysis
      ∧ (ingest_sensor_logs cfg st).maintenance_plan = st.maintenance_plan
      ∧ (ingest_sensor_logs cfg st).executive_summary = st.executive_summary
      ∧ (ingest_sensor_logs cfg st).errors = st.errors)
    ∧ ((analyze_graph_impact agent st).sensor_logs = st.sensor_logs
      ∧ (analyze_graph_impact agent st).maintenance_history = st.maintenance_history
      ∧ (analyze_graph_impact agent st).anomalies = st.anomalies
      ∧ (analyze_graph_impact agent st).failing_machines = st.failing_machines
      ∧ (analyze_graph_impact agent st).failure_probability = st.failure_probability
      ∧ (analyze_graph_impact agent st).root_cause_analysis = st.root_cause_analysis
      ∧ (analyze_graph_impact agent st).maintenance_plan = st.maintenance_plan
      ∧ (analyze_graph_impact agent st).executive_summary = st.executive_summary
      ∧ (analyze_graph_impact agent st).errors = st.errors)
    ∧ ((identify_root_cause agent st).sensor_logs = st.sensor_logs
      ∧ (identify_root_cause agent st).maintenance_history = st.maintenance_history
      ∧ (identify_root_cause agent st).anomalies = st.anomalies
      ∧ (identify_root_cause agent st).failing_machines = st.failing_machines
      ∧ (identify_root_cause agent st).failure_probability = st.failure_probability
      ∧ (identify_root_cause agent st).impact_analysis = st.impact_analysis
      ∧ (identify_root_cause agent st).graph_context = st.graph_context
      ∧ (identify_root_cause agent st).maintenance_plan = st.maintenance_plan
      ∧ (identify_root_cause agent st).executive_summary = st.executive_summary
      ∧ (identify_root_cause agent st).errors = st.errors)
    ∧ ((generate_maintenance_plan agent st).sensor_logs = st.sensor_logs
      ∧ (generate_maintenance_plan agent st).maintenance_history = st.maintenance_history
      ∧ (generate_maintenance_plan agent st).anomalies = st.anomalies
      ∧ (generate_maintenance_plan agent st).failing_machines = st.failing_machines
      ∧ (generate_maintenance_plan agent st).failure_probability = st.failure_probability
      ∧ (generate_maintenance_plan agent st).impact_analysis = st.impact_analysis
      ∧ (generate_maintenance_plan agent st).graph_context = st.graph_context
      ∧ (generate_maintenance_plan agent st).root_cause_analysis = st.root_cause_analysis
      ∧ (generate_maintenance_plan agent st).executive_summary = st.executive_summary
      ∧ (generate_maintenance_plan agent st).errors = st.errors)
    ∧ ((generate_executive_summary agent st).sensor_logs = st.sensor_logs
      ∧ (generate_executive_summary agent st).maintenance_history = st.maintenance_history
      ∧ (generate_executive_summary agent st).anomalies = st.anomalies
      ∧ (generate_executive_summary agent st).failing_machines = st.failing_machines
      ∧ (generate_executive_summary agent st).failure_probability = st.failure_probability
      ∧ (generate_executive_summary agent st).impact_analysis = st.impact_analysis
      ∧ (generate_executive_summary agent st).graph_context = st.graph_context
      ∧ (generate_executive_summary agent st).root_cause_analysis = st.root_cause_analysis
      ∧ (generate_executive_summary agent st).maintenance_plan = st.maintenance_plan
      ∧ (generate_executive_summary agent st).errors = st.errors) := by
  and_intros <;> rfl

/-- C9 counterexample: with `failure_threshold = 2.0`, far outside the
documented range [0.50, 0.95], a pipeline run is NOT rejected: every stage
executes and the run ends at `current_step = "complete"` — no configuration
validation exists anywhere. -/
theorem C9_counterexample :
    ¬ (1/2 ≤ badConfig.FAILURE_THRESHOLD ∧ badConfig.FAILURE_THRESHOLD ≤ 95/100)
      ∧ (runWorkflow badConfig stubAgent emptyState).current_step = "complete" := by
  constructor
  · rintro ⟨-, h2⟩
    norm_num [badConfig, defaultConfig] at h2
  · exact runWorkflow_current_step badConfig stubAgent emptyState

/-- C9 amended: the pipeline performs no pre-run threshold validation: for
EVERY threshold value (in or out of the documented range) the run executes
all five stages to `current_step = "complete"`, and the threshold is used
exactly as given — neither rejected nor clamped — when selecting failing
machines. -/
theorem C9_amended_no_validation (cfg : Config) (agent : Agent) (st : ManufacturingState) :
    (runWorkflow cfg agent st).current_step = "complete"
    ∧ (runWorkflow cfg agent st).failing_machines =
        (uniqueIds st.sensor_logs).filter
          (fun m => decide (cfg.FAILURE_THRESHOLD ≤ machineScore cfg st.sensor_logs m)) := by
  constructor
  · exact runWorkflow_current_step cfg agent st
  · show (ingest_sensor_logs cfg st).failing_machines = _
    simp only [ingest_sensor_logs]
    exact ingestLoop_failing cfg st.sensor_logs (uniqueIds st.sensor_logs)

/-- C10: `get_failure_impact` is idempotent and read-only: its query
consists of `MATCH`/`RETURN` clauses only, so two consecutive calls with no
intervening mutation return identical results and leave the store exactly
as it was. -/
theorem C10_get_failure_impact_idempotent (g : GraphState) (x : String) :
    ((get_failure_impact_run g x).1 =
      (get_failure_impact_run (get_failure_impact_run g x).2 x).1)
    ∧ (get_failure_impact_run g x).2 = g
    ∧ (get_failure_impact_run (get_failure_impact_run g x).2 x).2 = g :=
  ⟨rfl, rfl, rfl⟩
